import Mathlib

/-!
Shallow embedding of `src/ai_messaging_bot.py` (group-chat assistant:
relevance detection, FAQ storage/lookup, question extraction, per-group
context buffer, reminder scheduling).

Modelling conventions:
- Python strings are `List Char`; case-folding (Python `str.lower`, SQLite
  `LOWER`) is modelled by the ASCII lowercase map `lowerChar`, applied
  characterwise.
- The SQLite tables are lists of rows in insertion (rowid) order; `SELECT ...
  fetchone()` is `List.find?` (first matching row); `INSERT` appends;
  `UPDATE` maps over the rows.
- External collaborators (the spaCy NER, sentence segmenter and lemmatizer,
  and `datetime.strptime`) are inputs: entity labels, segmented sentences
  with per-token lemmas, and a parse oracle `List Char → Option Nat`
  (timestamps are abstract instants, `Nat`).
- Replies sent via `reply_text` and log lines are reified as values so
  theorems can speak about them.
-/

namespace SCM2Bot

/-- ASCII lowercase of one character, the common core of Python `str.lower`
and SQLite `LOWER` (both agree on ASCII, the alphabet of this model). -/
def lowerChar (c : Char) : Char :=
  if 'A' ≤ c ∧ c ≤ 'Z' then Char.ofNat (c.toNat + 32) else c

/-- Characterwise lowercase of a string. -/
def lowerStr (s : List Char) : List Char := s.map lowerChar

/-- Python regex `\w` (word character) restricted to ASCII: letters, digits,
underscore. Used for the `\b` word boundaries of the keyword patterns. -/
def isWordChar (c : Char) : Bool := c.isAlphanum || c = '_'

/-- The keyword alternatives of the two regex patterns in `IMPORTANT_KEYWORDS`
(`\b(announcement|event|reminder|urgent|critical|deadline)\b` and
`\b(date|time|location|schedule)\b`), flattened; `detect_relevance` tries
each pattern and a match by any alternative makes `re.search` succeed. -/
def IMPORTANT_KEYWORDS : List (List Char) :=
  ["announcement".toList, "event".toList, "reminder".toList,
   "urgent".toList, "critical".toList, "deadline".toList,
   "date".toList, "time".toList, "location".toList, "schedule".toList]

/-- `kw` occurs at the head of `s` delimited by word boundaries, given the
character just before `s` (`none` at the start of the text). -/
def matchesWordAt (kw : List Char) (prev : Option Char) (s : List Char) : Bool :=
  kw.isPrefixOf s
    && (match prev with
        | none => true
        | some p => !isWordChar p)
    && (match s.drop kw.length with
        | [] => true
        | c :: _ => !isWordChar c)

/-- `kw` occurs somewhere in the given suffix of the text with word
boundaries on both sides; `prev` is the character preceding the suffix.
This is `re.search` of the pattern `\bkw\b`. -/
def occursWordFrom (kw : List Char) (prev : Option Char) : List Char → Bool
  | [] => false
  | c :: rest => matchesWordAt kw prev (c :: rest) || occursWordFrom kw (some c) rest

/-- Some keyword pattern of `IMPORTANT_KEYWORDS` matches the text. -/
def containsKeywordWord (text : List Char) : Bool :=
  IMPORTANT_KEYWORDS.any (fun kw => occursWordFrom kw none text)

/-- Embeds `AIMessagingBot.detect_relevance` (lines 58–67): lowercase the
text, return true on any keyword-pattern match, otherwise return true iff
the external NER (here: the list of entity labels it reports on the lowered
text) contains DATE, TIME or EVENT. -/
def detect_relevance (text : List Char) (entLabels : List (List Char)) : Bool :=
  containsKeywordWord (lowerStr text)
    || entLabels.any (fun l =>
        decide (l = "DATE".toList) || decide (l = "TIME".toList)
          || decide (l = "EVENT".toList))

/-- A row of the `knowledge` table: `(group_id, question, answer, frequency)`. -/
structure KnowledgeRow where
  group_id : List Char
  question : List Char
  answer : List Char
  frequency : Nat
deriving DecidableEq

/-- The WHERE clause of the SELECT in `get_faq_answer` (line 85):
`group_id = ? AND LOWER(question) = ?`, the parameter being
`question.lower()`. -/
def faq_match (group_id question : List Char) (r : KnowledgeRow) : Bool :=
  decide (r.group_id = group_id ∧ lowerStr r.question = lowerStr question)

/-- Embeds `AIMessagingBot.get_faq_answer` (lines 80–101). On a hit it
returns the found answer and runs the frequency UPDATE; the UPDATE's WHERE
clause is `group_id = ? AND question = ?` with parameter `result[0]`, which
is the ANSWER column of the fetched row (the inline comment says "Use
original question for update", but `result` is `(answer, frequency)`), so
the rows updated are those whose question text equals the found answer.
On a miss it returns `none` and leaves the table unchanged. -/
def get_faq_answer (db : List KnowledgeRow) (group_id question : List Char) :
    Option (List Char) × List KnowledgeRow :=
  match db.find? (faq_match group_id question) with
  | none => (none, db)
  | some r =>
      (some r.answer,
       db.map (fun r2 =>
         if r2.group_id = group_id ∧ r2.question = r.answer
         then { r2 with frequency := r.frequency + 1 }
         else r2))

/-- Embeds `AIMessagingBot.store_faq` (lines 103–112): a plain INSERT of
`(group_id, question, answer, 1)`, no uniqueness check. -/
def store_faq (db : List KnowledgeRow) (group_id question answer : List Char) :
    List KnowledgeRow :=
  db ++ [⟨group_id, question, answer, 1⟩]

/-- The placeholder answer stored on an FAQ miss (line 164). -/
def pending_answer : List Char := "Pending admin response".toList

/-- Embeds the question-handling block of `handle_message` (lines 156–164),
given the question already extracted: look up the FAQ; `if answer:` is
Python truthiness, so both `None` and the empty string take the miss branch,
which stores a `"Pending admin response"` row and yields no auto-answer.
Returns the auto-answer (if any) and the updated `knowledge` table. -/
def handle_question (db : List KnowledgeRow) (group_id question : List Char) :
    Option (List Char) × List KnowledgeRow :=
  match get_faq_answer db group_id question with
  | (some a, db2) =>
      if a = [] then (none, store_faq db2 group_id question pending_answer)
      else (some a, db2)
  | (none, db2) => (none, store_faq db2 group_id question pending_answer)

/-- A spaCy token, exposing only the lemma, the one attribute
`extract_question` reads (`token.lemma_`). -/
structure Token where
  lemma_ : List Char
deriving DecidableEq

/-- A spaCy sentence: its text and its tokens, as the external segmenter and
lemmatizer report them. -/
structure Sentence where
  text : List Char
  tokens : List Token
deriving DecidableEq

/-- The question lemmas of line 118. -/
def question_lemmas : List (List Char) :=
  ["what".toList, "how".toList, "when".toList, "where".toList, "why".toList]

/-- The per-sentence test of line 118: `"?" in sent.text or any(token.lemma_
in [...] for token in sent)`. -/
def isQuestionSent (s : Sentence) : Bool :=
  decide ('?' ∈ s.text) || s.tokens.any (fun t => decide (t.lemma_ ∈ question_lemmas))

/-- Python `str.strip()`: drop leading and trailing whitespace. -/
def stripStr (s : List Char) : List Char :=
  ((s.dropWhile Char.isWhitespace).reverse.dropWhile Char.isWhitespace).reverse

/-- Embeds `AIMessagingBot.extract_question` (lines 114–120): iterate the
segmenter's sentences in order, return the stripped text of the first one
passing `isQuestionSent`, else `None`. -/
def extract_question : List Sentence → Option (List Char)
  | [] => none
  | s :: rest =>
      if isQuestionSent s then some (stripStr s.text) else extract_question rest

/-- Embeds the context-buffer block of `handle_message` (lines 166–168) for
one group: append the text, then `pop(0)` if the length exceeds 100. -/
def updateContext (ctx : List (List Char)) (text : List Char) : List (List Char) :=
  let ctx2 := ctx ++ [text]
  if 100 < ctx2.length then ctx2.tail else ctx2

/-- A row of the `reminders` table. -/
structure ReminderRow where
  group_id : List Char
  message_id : Nat
  content : List Char
  remind_time : Nat
deriving DecidableEq

/-- The storage-layer failure (`sqlite3.Error`) that the INSERT in
`store_reminder` may raise. -/
inductive StorageErr where
  | sqliteError
deriving DecidableEq

/-- Log lines emitted by `store_reminder`. -/
inductive LogMsg where
  | storedReminder
  | sqliteError
deriving DecidableEq

/-- The INSERT attempt inside `store_reminder`'s `try` (lines 128–132): the
oracle `insertOk` says whether the storage layer raises `sqlite3.Error`. -/
def insert_reminder_row (insertOk : Bool) (db : List ReminderRow) (row : ReminderRow) :
    Except StorageErr (List ReminderRow) :=
  if insertOk then Except.ok (db ++ [row]) else Except.error StorageErr.sqliteError

/-- Embeds `AIMessagingBot.store_reminder` (lines 123–137): the INSERT runs
under `try`; `sqlite3.Error` is caught and logged and the function returns
normally either way (the result type carries no error), leaving the table
unchanged on failure. -/
def store_reminder (insertOk : Bool) (db : List ReminderRow) (row : ReminderRow) :
    List ReminderRow × List LogMsg :=
  match insert_reminder_row insertOk db row with
  | Except.ok db2 => (db2, [LogMsg.storedReminder])
  | Except.error _ => (db, [LogMsg.sqliteError])

/-- The user-visible reply `set_reminder` sends. -/
inductive ReminderReply where
  /-- "Reminder time must be in the future." (line 195) -/
  | pastTime
  /-- "Reminder set for '{content}' at {time_str}" (line 198) -/
  | success (content time_str : List Char)
  /-- "Invalid format. Use: /setreminder message | YYYY-MM-DD HH:MM" (line 204) -/
  | formatError
deriving DecidableEq

/-- Embeds `set_reminder` (lines 182–207) after argument splitting, for a
single reading of the clock `now`. `parse` is the external
`datetime.strptime(·, "%Y-%m-%d %H:%M")`: `none` when it raises
`ValueError` (caught at line 202, answered with the format-error reply).
A parsed time strictly before `now` is refused (line 194 uses `<`).
Otherwise the reminder row is stored (with `insertOk` saying whether that
INSERT succeeds), the success reply is sent, and one delayed delivery task
`(content, remind_time - now)` is created. Returns the `reminders` table,
the scheduled tasks, and the reply. -/
def set_reminder (parse : List Char → Option Nat) (now : Nat) (insertOk : Bool)
    (group_id : List Char) (message_id : Nat) (content time_str : List Char)
    (db : List ReminderRow) :
    List ReminderRow × List (List Char × Nat) × ReminderReply :=
  match parse time_str with
  | none => (db, [], ReminderReply.formatError)
  | some remind_time =>
      if remind_time < now then (db, [], ReminderReply.pastTime)
      else
        let res := store_reminder insertOk db ⟨group_id, message_id, content, remind_time⟩
        (res.1, [(content, remind_time - now)], ReminderReply.success content time_str)

/-! ### Helper lemmas -/

/-- If no element of the first list satisfies the predicate, `find?` over the
concatenation is `find?` over the second list. -/
theorem find?_append_of_eq_none {α : Type} (p : α → Bool) (l1 l2 : List α)
    (h : l1.find? p = none) : (l1 ++ l2).find? p = l2.find? p := by
  induction l1 with
  | nil => rfl
  | cons a l ih =>
    by_cases hpa : p a = true
    · rw [List.find?_cons_of_pos _ hpa] at h
      exact absurd h (by simp)
    · rw [List.find?_cons_of_neg _ (by simpa using hpa)] at h
      rw [List.cons_append, List.find?_cons_of_neg _ (by simpa using hpa)]
      exact ih h

/-- `find?` over a concatenation keeps a hit found in the first list. -/
theorem find?_append_of_eq_some {α : Type} (p : α → Bool) (l1 l2 : List α) (a : α)
    (h : l1.find? p = some a) : (l1 ++ l2).find? p = some a := by
  induction l1 with
  | nil => simp at h
  | cons b l ih =>
    by_cases hpb : p b = true
    · rw [List.find?_cons_of_pos _ hpb] at h
      rw [List.cons_append, List.find?_cons_of_pos _ hpb]
      exact h
    · rw [List.find?_cons_of_neg _ (by simpa using hpb)] at h
      rw [List.cons_append, List.find?_cons_of_neg _ (by simpa using hpb)]
      exact ih h

/-- On a question with no case-insensitively matching row for the group,
`handle_question` yields no auto-answer and appends exactly the pending row. -/
theorem handle_question_of_no_match (db : List KnowledgeRow) (g q : List Char)
    (hno : ∀ r ∈ db, ¬ (r.group_id = g ∧ lowerStr r.question = lowerStr q)) :
    handle_question db g q = (none, db ++ [⟨g, q, pending_answer, 1⟩]) := by
  have hfind : db.find? (faq_match g q) = none := by
    rw [List.find?_eq_none]
    intro r hr
    simpa [faq_match] using hno r hr
  simp [handle_question, get_faq_answer, hfind, store_faq]

/-! ### Claim theorems -/

/-- Claim C1 (code_bug evaluation): `store_faq` of (group "g", question "q",
answer "a") into an empty table followed by `handle_question` on the same
question returns the answer, but the matching row's frequency stays 1
instead of going to 2: the UPDATE of `get_faq_answer` filters on
`question = result[0]`, and `result[0]` is the answer column, so no row is
updated. -/
theorem faq_hit_frequency_not_incremented :
    handle_question (store_faq [] ['g'] ['q'] ['a']) ['g'] ['q'] =
      (some ['a'], [⟨['g'], ['q'], ['a'], 1⟩]) := by decide

/-- Claim C3: for a group and a question with no case-insensitively matching
row stored for that group, `handle_question` returns no auto-answer and
afterwards the knowledge table holds exactly one new row for that question
with answer "Pending admin response" and frequency 1, every pre-existing
row unchanged (the table is the old table with the one row appended). -/
theorem faq_miss_registers_pending (db : List KnowledgeRow) (g q : List Char)
    (hno : ∀ r ∈ db, ¬ (r.group_id = g ∧ lowerStr r.question = lowerStr q)) :
    handle_question db g q = (none, db ++ [⟨g, q, pending_answer, 1⟩]) :=
  handle_question_of_no_match db g q hno

/-- Witness for C3 at an empty table, group "g", question "q". -/
theorem faq_miss_registers_pending_w :
    (∀ r ∈ ([] : List KnowledgeRow),
      ¬ (r.group_id = ['g'] ∧ lowerStr r.question = lowerStr ['q'])) ∧
    handle_question [] ['g'] ['q'] = (none, [⟨['g'], ['q'], pending_answer, 1⟩]) :=
  ⟨by simp, faq_miss_registers_pending [] ['g'] ['q'] (by simp)⟩

/-- Claim C5: FAQ lookup is case-insensitive: after `store_faq` of
(g, q, a), looking up any q' with the same case-folding as q in the same
group is a hit (some answer is returned), and when no earlier row of the
group matches that case-folding the returned answer is a itself. -/
theorem faq_lookup_case_insensitive (db : List KnowledgeRow) (g q a q' : List Char)
    (hq : lowerStr q' = lowerStr q) :
    ((get_faq_answer (store_faq db g q a) g q').1).isSome = true ∧
    ((∀ r ∈ db, ¬ (r.group_id = g ∧ lowerStr r.question = lowerStr q')) →
      (get_faq_answer (store_faq db g q a) g q').1 = some a) := by
  have hp : faq_match g q' (⟨g, q, a, 1⟩ : KnowledgeRow) = true := by
    simp [faq_match, hq]
  constructor
  · cases hfd : db.find? (faq_match g q') with
    | some r =>
      have h2 : (db ++ [(⟨g, q, a, 1⟩ : KnowledgeRow)]).find? (faq_match g q') = some r :=
        find?_append_of_eq_some _ _ _ _ hfd
      simp [get_faq_answer, store_faq, h2]
    | none =>
      have h2 : (db ++ [(⟨g, q, a, 1⟩ : KnowledgeRow)]).find? (faq_match g q')
          = some ⟨g, q, a, 1⟩ := by
        rw [find?_append_of_eq_none _ _ _ hfd, List.find?_cons_of_pos _ hp]
      simp [get_faq_answer, store_faq, h2]
  · intro hno
    have hfd : db.find? (faq_match g q') = none := by
      rw [List.find?_eq_none]
      intro r hr
      simpa [faq_match] using hno r hr
    have h2 : (db ++ [(⟨g, q, a, 1⟩ : KnowledgeRow)]).find? (faq_match g q')
        = some ⟨g, q, a, 1⟩ := by
      rw [find?_append_of_eq_none _ _ _ hfd, List.find?_cons_of_pos _ hp]
    simp [get_faq_answer, store_faq, h2]

/-- Witness for C5: question "Qx" stored, query "qX" (same lowercase). -/
theorem faq_lookup_case_insensitive_w :
    lowerStr ("qX".toList) = lowerStr ("Qx".toList) ∧
    ((get_faq_answer (store_faq [] ['g'] ("Qx".toList) ['a']) ['g'] ("qX".toList)).1).isSome
      = true :=
  ⟨by decide,
   (faq_lookup_case_insensitive [] ['g'] ("Qx".toList) ['a'] ("qX".toList) (by decide)).1⟩

/-- Claim C10: after `handle_question` misses for (g, q) and registers the
pending row, a subsequent `handle_question` for the same group with any
case-insensitively equal question returns the literal placeholder
"Pending admin response" as the auto-answer, not none. -/
theorem pending_row_answered_after_miss (db : List KnowledgeRow) (g q q' : List Char)
    (hno : ∀ r ∈ db, ¬ (r.group_id = g ∧ lowerStr r.question = lowerStr q))
    (hq : lowerStr q' = lowerStr q) :
    (handle_question db g q).1 = none ∧
    (handle_question (handle_question db g q).2 g q').1 = some pending_answer := by
  have h1 := handle_question_of_no_match db g q hno
  rw [h1]
  refine ⟨rfl, ?_⟩
  have hfind : db.find? (faq_match g q') = none := by
    rw [List.find?_eq_none]
    intro r hr
    simp only [faq_match, hq, decide_eq_true_eq]
    exact hno r hr
  have hp : faq_match g q' (⟨g, q, pending_answer, 1⟩ : KnowledgeRow) = true := by
    simp [faq_match, hq]
  have hfind2 : (db ++ [(⟨g, q, pending_answer, 1⟩ : KnowledgeRow)]).find? (faq_match g q')
      = some ⟨g, q, pending_answer, 1⟩ := by
    rw [find?_append_of_eq_none _ _ _ hfind, List.find?_cons_of_pos _ hp]
  have hne : pending_answer ≠ [] := by decide
  simp [handle_question, get_faq_answer, hfind2, hne]

/-- Witness for C10: miss on "Qx" in the empty table, then query "qX". -/
theorem pending_row_answered_after_miss_w :
    (handle_question [] ['g'] ("Qx".toList)).1 = none ∧
    (handle_question (handle_question [] ['g'] ("Qx".toList)).2 ['g'] ("qX".toList)).1 =
      some pending_answer :=
  pending_row_answered_after_miss [] ['g'] ("Qx".toList) ("qX".toList) (by simp) (by decide)

/-- A past time string for the reminder witnesses. -/
def ts_past : List Char := "2020-01-01 00:00".toList

/-- Claim C2 counterexample: with the clock at instant 5 and a time string
parsing to exactly 5 — equal to the current time, hence not strictly after
it — `set_reminder` does not reply with the past-time error: line 194 only
rejects `remind_time < now`, so the equal time is accepted, a reminder row
is persisted and a delivery is scheduled. -/
theorem reminder_equal_time_accepted :
    (set_reminder (fun _ => some 5) 5 true ['g'] 1 ['m'] ['t'] []).2.2 ≠
      ReminderReply.pastTime ∧
    (set_reminder (fun _ => some 5) 5 true ['g'] 1 ['m'] ['t'] []).1 =
      [⟨['g'], 1, ['m'], 5⟩] := by
  exact ⟨by decide, by decide⟩

/-- Claim C2 (amended): for every reminder request whose time string parses
to a timestamp strictly before the current time, `set_reminder` fails with
the past-time error and persists nothing: the reminders table is unchanged,
no delivery task is scheduled (a timestamp exactly equal to the current
time is accepted instead). -/
theorem reminder_past_time_rejected (parse : List Char → Option Nat)
    (now t : Nat) (insertOk : Bool) (g : List Char) (mid : Nat)
    (content ts : List Char) (db : List ReminderRow)
    (hp : parse ts = some t) (hlt : t < now) :
    set_reminder parse now insertOk g mid content ts db =
      (db, [], ReminderReply.pastTime) := by
  simp [set_reminder, hp, hlt]

/-- Witness for C2 (amended): "2020-01-01 00:00" parsing to instant 0 with
the clock at instant 1. -/
theorem reminder_past_time_rejected_w :
    set_reminder (fun _ => some 0) 1 true ['g'] 1 ['m'] ts_past [] =
      ([], [], ReminderReply.pastTime) :=
  reminder_past_time_rejected (fun _ => some 0) 1 0 true ['g'] 1 ['m'] ts_past [] rfl
    (by decide)

/-- Claim C4: when the INSERT of the reminder row raises a storage error,
`store_reminder` catches it, logs it and returns normally with the table
unchanged (no error reaches the caller), and `set_reminder` still sends the
"Reminder set ..." success reply — and even schedules the delayed delivery
— although nothing was persisted. -/
theorem reminder_insert_failure_swallowed (parse : List Char → Option Nat)
    (now t : Nat) (g : List Char) (mid : Nat) (content ts : List Char)
    (db : List ReminderRow)
    (hp : parse ts = some t) (hge : ¬ t < now) :
    store_reminder false db ⟨g, mid, content, t⟩ = (db, [LogMsg.sqliteError]) ∧
    set_reminder parse now false g mid content ts db =
      (db, [(content, t - now)], ReminderReply.success content ts) := by
  refine ⟨rfl, ?_⟩
  simp [set_reminder, hp, hge, store_reminder, insert_reminder_row]

/-- Witness for C4: a failing INSERT at parsed time 7 with the clock at 5. -/
theorem reminder_insert_failure_swallowed_w :
    store_reminder false [] ⟨['g'], 1, ['m'], 7⟩ = ([], [LogMsg.sqliteError]) ∧
    set_reminder (fun _ => some 7) 5 false ['g'] 1 ['m'] ['t'] [] =
      ([], [(['m'], 2)], ReminderReply.success ['m'] ['t']) :=
  reminder_insert_failure_swallowed (fun _ => some 7) 5 7 ['g'] 1 ['m'] ['t'] [] rfl
    (by decide)

/-- Claim C6: for every reminder request whose time string does not parse in
the fixed format (the external `strptime` raises `ValueError`),
`set_reminder` replies with the format-error message and persists nothing:
the reminders table is unchanged and no delivery task is scheduled. -/
theorem reminder_format_error_rejected (parse : List Char → Option Nat)
    (now : Nat) (insertOk : Bool) (g : List Char) (mid : Nat)
    (content ts : List Char) (db : List ReminderRow)
    (hp : parse ts = none) :
    set_reminder parse now insertOk g mid content ts db =
      (db, [], ReminderReply.formatError) := by
  simp [set_reminder, hp]

/-- Witness for C6: the unparsable time string "tomorrow". -/
theorem reminder_format_error_rejected_w :
    set_reminder (fun _ => none) 5 true ['g'] 1 ['m'] ("tomorrow".toList) [] =
      ([], [], ReminderReply.formatError) :=
  reminder_format_error_rejected (fun _ => none) 5 true ['g'] 1 ['m'] ("tomorrow".toList)
    [] rfl

/-- Claim C7: for every text in whose lowercasing one of the fixed keywords
occurs delimited by word boundaries (so any casing of the keyword in the
original text), `detect_relevance` returns true, whatever the external NER
reports. -/
theorem detect_relevance_keyword_true (text : List Char) (ents : List (List Char))
    (kw : List Char) (hk : kw ∈ IMPORTANT_KEYWORDS)
    (hocc : occursWordFrom kw none (lowerStr text) = true) :
    detect_relevance text ents = true := by
  have hc : containsKeywordWord (lowerStr text) = true := by
    rw [containsKeywordWord, List.any_eq_true]
    exact ⟨kw, hk, hocc⟩
  simp [detect_relevance, hc]

/-- Witness for C7: the keyword "urgent" appearing uppercase in "URGENT!",
with an NER reporting no entities. -/
theorem detect_relevance_keyword_true_w :
    (("urgent".toList) ∈ IMPORTANT_KEYWORDS ∧
      occursWordFrom ("urgent".toList) none (lowerStr ("URGENT!".toList)) = true) ∧
    detect_relevance ("URGENT!".toList) [] = true :=
  ⟨⟨by decide, by decide⟩,
   detect_relevance_keyword_true ("URGENT!".toList) [] ("urgent".toList) (by decide)
     (by decide)⟩

/-- Claim C9: the per-group context buffer stays bounded: if it has at most
100 entries before a message is handled, it has at most 100 afterwards, and
when it is exactly full (100 entries) the entry dropped is the oldest one
(the head), the new text being appended at the tail. -/
theorem group_context_bounded (ctx : List (List Char)) (text : List Char)
    (h : ctx.length ≤ 100) :
    (updateContext ctx text).length ≤ 100 ∧
    (ctx.length = 100 → updateContext ctx text = ctx.tail ++ [text]) := by
  constructor
  · unfold updateContext
    by_cases hc : 100 < (ctx ++ [text]).length
    · rw [if_pos hc]
      simp only [List.length_tail, List.length_append, List.length_singleton]
      omega
    · rw [if_neg hc]
      simp only [List.length_append, List.length_singleton] at hc ⊢
      omega
  · intro h100
    cases ctx with
    | nil => simp at h100
    | cons c cs =>
      have hc : 100 < ((c :: cs) ++ [text]).length := by
        simp only [List.length_append, List.length_cons, List.length_singleton]
        simp only [List.length_cons] at h100
        omega
      unfold updateContext
      rw [if_pos hc]
      simp only [List.cons_append, List.tail_cons]

/-- Witness for C9 on a full buffer of 100 entries. -/
theorem group_context_bounded_w :
    (List.replicate 100 ([] : List Char)).length ≤ 100 ∧
    (updateContext (List.replicate 100 ([] : List Char)) ['x']).length ≤ 100 :=
  ⟨by simp, (group_context_bounded (List.replicate 100 []) ['x'] (by simp)).1⟩

/-- Claim C8: `extract_question` returns the stripped text of the first
sentence, in segmenter order, that contains a literal "?" or a token whose
lemma is one of what/how/when/where/why, and returns none when no sentence
qualifies; a later sentence is never returned when an earlier one
qualifies. -/
theorem extract_question_first_match (sents : List Sentence) :
    ((∀ s ∈ sents, isQuestionSent s = false) → extract_question sents = none) ∧
    (∀ i (hi : i < sents.length), isQuestionSent (sents.get ⟨i, hi⟩) = true →
      (∀ j (hj : j < sents.length), j < i → isQuestionSent (sents.get ⟨j, hj⟩) = false) →
      extract_question sents = some (stripStr (sents.get ⟨i, hi⟩).text)) := by
  induction sents with
  | nil =>
    refine ⟨fun _ => rfl, ?_⟩
    intro i hi
    exact absurd hi (by simp)
  | cons s rest ih =>
    constructor
    · intro h
      have hs : isQuestionSent s = false := h s (List.mem_cons_self _ _)
      simp only [extract_question, hs]
      simp only [Bool.false_eq_true, if_false]
      exact ih.1 fun s2 hs2 => h s2 (List.mem_cons_of_mem _ hs2)
    · intro i hi hqi hprev
      cases i with
      | zero =>
        have hq0 : isQuestionSent s = true := hqi
        show extract_question (s :: rest) = some (stripStr s.text)
        simp [extract_question, hq0]
      | succ n =>
        have hs : isQuestionSent s = false := hprev 0 (by simp) (Nat.succ_pos n)
        have hn : n < rest.length := Nat.lt_of_succ_lt_succ hi
        have hq2 : isQuestionSent (rest.get ⟨n, hn⟩) = true := hqi
        have hp2 : ∀ j (hj : j < rest.length), j < n →
            isQuestionSent (rest.get ⟨j, hj⟩) = false := by
          intro j hj hlt
          exact hprev (j + 1) (Nat.succ_lt_succ hj) (Nat.succ_lt_succ hlt)
        have hrec := ih.2 n hn hq2 hp2
        show extract_question (s :: rest) = some (stripStr (rest.get ⟨n, hn⟩).text)
        simp only [extract_question, hs]
        simp only [Bool.false_eq_true, if_false]
        exact hrec

/-- A declarative sentence, for the extractor witness. -/
def sentPlain : Sentence :=
  ⟨"Hello there.".toList, [⟨"hello".toList⟩, ⟨"there".toList⟩]⟩

/-- An interrogative sentence with surrounding whitespace, for the extractor
witness. -/
def sentQuestion : Sentence :=
  ⟨" What is the venue? ".toList,
   [⟨"what".toList⟩, ⟨"be".toList⟩, ⟨"the".toList⟩, ⟨"venue".toList⟩]⟩

/-- Witness for C8: the second sentence is the first qualifying one and its
stripped text is returned. -/
theorem extract_question_first_match_w :
    extract_question [sentPlain, sentQuestion] = some ("What is the venue?".toList) :=
  ((extract_question_first_match [sentPlain, sentQuestion]).2 1 (by decide) (by decide)
      (by decide)).trans (by decide)

end SCM2Bot
